import Mathlib

/-!
Shallow embedding of JointPointerMath.h (header-only C++ library for joint
allocations) together with theorems checking the natural-language design
document against it.

Modelling conventions:
- Pointers are modelled as mathematical addresses (natural numbers); the C++
  null pointer is address 0.  The source fabricates pointers from integer
  offsets (starting from `(void*)0`) and converts them back with `(size_t)`
  casts, so pointer values and `size_t` values coincide.
- `std::align(Alignment, Size, Ptr, Space)` is embedded by its C++ standard
  specification: it rounds `Ptr` up to the next multiple of `Alignment` and
  returns the aligned pointer when `Size` fits in the remaining `Space`,
  and returns the null pointer otherwise.  The source always passes
  `std::numeric_limits<size_t>::max()` as `Space`.
- `JOINTPOINTERMATH_ASSERT` is the active `assert(x)` variant (line 111 of
  the header); a failed assertion is modelled as an error result.  The
  `Elems != nullptr` assertions have no counterpart here because a Lean list
  cannot be a null pointer.
- The allocator callbacks are modelled as functions returning an address,
  with 0 standing for a null (failed) allocation, exactly as the code treats
  the returned `void*`.
- Output parameters (`OutSize`, the per-request `void** Pointer` slots) are
  reified: the model returns the value stored through `OutSize` (when the
  caller passed a non-null `OutSize`) and the list of (slot, value) writes
  performed through the request pointers, in order.
-/

/-- Value of `std::numeric_limits<std::size_t>::max()` on the 64-bit
targets the header is written for; the source passes it as the `Space`
argument of every `std::align` call. -/
def SIZE_MAX : Nat := 2 ^ 64 - 1

/-- Rounding a cursor up to the next multiple of `a`, as `std::align`
computes the aligned pointer.  For the power-of-two alignments that
`std::align` requires this is the bit-mask computation of the common
library implementations, written with division so that it is total. -/
def roundUp (p a : Nat) : Nat := ((p + a - 1) / a) * a

/-- Embedding of `std::align(Alignment, Size, Ptr, Space)` with
`Space = SIZE_MAX`, following the C++ standard: if `Size` fits into the
space remaining after aligning, the aligned pointer is returned; otherwise
the null pointer (0) is returned.  The source assigns the RESULT of
`std::align` back into its cursor, so the failure case makes the cursor
null. -/
def stdAlign (alignment size p : Nat) : Nat :=
  let aligned := roundUp p alignment
  if size ≤ SIZE_MAX - (aligned - p) then aligned else 0

/-- The `JointPointer_t` struct of the header: an output slot address
(`void** Pointer`), a byte count, an alignment, and the offset written by
the planner. -/
structure JointPointer_t where
  Pointer : Nat
  Size : Nat
  Alignment : Nat
  Offset : Nat
deriving Repr, DecidableEq

/-- Failure of a `JOINTPOINTERMATH_ASSERT(Num > 0)` (respectively
`assert(ini.size() > 0)`) precondition check.  This assertion is what
realises the EmptyRequestSet failure of the design document: it fires
exactly on an empty request sequence, before any other work. -/
inductive JPError where
  | assertNumPositive
deriving Repr, DecidableEq

/-- The loop body of `JointPointerTotalSize` (header lines 153-160): a
cursor starts at the null pointer, each element has its cursor aligned by
`std::align`, the aligned cursor is stored as the element Offset, and the
cursor then advances by the element Size.  Returns the updated elements
and the final cursor, which the function returns as the total size. -/
def totalSizeLoop : Nat → List JointPointer_t → List JointPointer_t × Nat
  | p, [] => ([], p)
  | p, e :: rest =>
    let aligned := stdAlign e.Alignment e.Size p
    let res := totalSizeLoop (aligned + e.Size) rest
    ({ e with Offset := aligned } :: res.1, res.2)

/-- `JointPointerTotalSize(int Num, JointPointer_t* Elems)` (header lines
149-162).  The `assert(Num > 0)` precondition is the error case; the list
already carries its length, so `Num` is `elems.length`. -/
def JointPointerTotalSize (elems : List JointPointer_t) :
    Except JPError (List JointPointer_t × Nat) :=
  if elems.length > 0 then .ok (totalSizeLoop 0 elems) else .error .assertNumPositive

/-- `JointPointerWrite(void* Memory, int Num, JointPointer_t* Elems)`
(header lines 170-178): stores `Memory + Offset` through each element
slot; returns the (slot, value) writes in order.  Guarded by
`assert(Num > 0)`. -/
def JointPointerWrite (memory : Nat) (elems : List JointPointer_t) :
    Except JPError (List (Nat × Nat)) :=
  if elems.length > 0 then
    .ok (elems.map fun e => (e.Pointer, memory + e.Offset))
  else .error .assertNumPositive

/-- Everything a `JointPointerAllocate` call hands back: the value stored
through `OutSize` (none when the caller passed a null `OutSize`), the
writes performed through the request slots, the returned pointer, and the
request array as left behind by the call. -/
structure AllocReturn where
  outSize : Option Nat
  writes : List (Nat × Nat)
  ret : Nat
  elems : List JointPointer_t
deriving Repr, DecidableEq

/-- `JointPointerAllocate(size_t* OutSize, void* (*Alloc)(size_t), int Num,
JointPointer_t* Elems)` (header lines 180-192).  The boolean records
whether `OutSize` was non-null.  The second component of the result is the
trace of allocator invocations (the sizes passed to `Alloc`), kept so that
theorems can speak about the allocator never being called. -/
def JointPointerAllocate (outSizeNonNull : Bool) (alloc : Nat → Nat)
    (elems : List JointPointer_t) : Except JPError AllocReturn × List Nat :=
  if elems.length > 0 then
    match JointPointerTotalSize elems with
    | .error e => (.error e, [])
    | .ok (es, total) =>
      let memory := alloc total
      match JointPointerWrite memory es with
      | .error e => (.error e, [total])
      | .ok ws =>
        (.ok { outSize := if outSizeNonNull then some total else none,
               writes := ws, ret := memory, elems := es }, [total])
  else (.error .assertNumPositive, [])

/-- `JointPointerAllocate(size_t* OutSize, void* (*Alloc)(size_t, size_t),
int Num, JointPointer_t* Elems)` (header lines 194-206).  The allocator
trace records the two arguments of each invocation in the order passed:
the source (line 203) calls `Alloc(Elems[0].Alignment, TotalSize)`, i.e.
it passes the alignment in the `Size` parameter position and the total in
the `Alignment` parameter position of the declared callback type. -/
def JointPointerAllocateAligned (outSizeNonNull : Bool)
    (alloc : Nat → Nat → Nat) (elems : List JointPointer_t) :
    Except JPError AllocReturn × List (Nat × Nat) :=
  match elems with
  | [] => (.error .assertNumPositive, [])
  | e0 :: _ =>
    match JointPointerTotalSize elems with
    | .error e => (.error e, [])
    | .ok (es, total) =>
      let memory := alloc e0.Alignment total
      match JointPointerWrite memory es with
      | .error e => (.error e, [(e0.Alignment, total)])
      | .ok ws =>
        (.ok { outSize := if outSizeNonNull then some total else none,
               writes := ws, ret := memory, elems := es }, [(e0.Alignment, total)])

/-- First loop of the `initializer_list` overloads (header lines 223-229
and 255-261): same cursor recurrence as the planner, but the elements are
`const` so no Offset is stored; only the final cursor is produced. -/
def iniCursorLoop : Nat → List JointPointer_t → Nat
  | p, [] => p
  | p, e :: rest => iniCursorLoop (stdAlign e.Alignment e.Size p + e.Size) rest

/-- Second loop of the `initializer_list` overloads (header lines 239-246
and 271-278): the cursor recurrence is recomputed from 0 and
`Memory + cursor` is written through each slot. -/
def iniWriteLoop (memory : Nat) : Nat → List JointPointer_t → List (Nat × Nat)
  | _, [] => []
  | p, e :: rest =>
    let aligned := stdAlign e.Alignment e.Size p
    (e.Pointer, memory + aligned) :: iniWriteLoop memory (aligned + e.Size) rest

/-- `JointPointerAllocate(size_t* OutSize, void* (*Alloc)(size_t),
std::initializer_list<JointPointer_t> ini)` (header lines 218-248).  Note
`return nullptr;` on line 247: the computed base address is never
returned, and the list elements keep their original (unwritten) Offset
fields. -/
def JointPointerAllocateIni (outSizeNonNull : Bool) (alloc : Nat → Nat)
    (ini : List JointPointer_t) : Except JPError AllocReturn × List Nat :=
  if ini.length > 0 then
    let total := iniCursorLoop 0 ini
    let memory := alloc total
    (.ok { outSize := if outSizeNonNull then some total else none,
           writes := iniWriteLoop memory 0 ini, ret := 0, elems := ini }, [total])
  else (.error .assertNumPositive, [])

/-- `JointPointerAllocate(size_t* OutSize, void* (*Alloc)(size_t, size_t),
std::initializer_list<JointPointer_t> ini)` (header lines 250-280).  Line
268 calls `Alloc(TotalSize, ini.begin()->Alignment)`, matching the
declared parameter order; line 279 is `return nullptr;`. -/
def JointPointerAllocateIniAligned (outSizeNonNull : Bool)
    (alloc : Nat → Nat → Nat) (ini : List JointPointer_t) :
    Except JPError AllocReturn × List (Nat × Nat) :=
  match ini with
  | [] => (.error .assertNumPositive, [])
  | e0 :: _ =>
    let total := iniCursorLoop 0 ini
    let memory := alloc total e0.Alignment
    (.ok { outSize := if outSizeNonNull then some total else none,
           writes := iniWriteLoop memory 0 ini, ret := 0, elems := ini },
     [(total, e0.Alignment)])

/-- Rounding a cursor up to the nearest multiple of the alignment, as the
sequential bump-with-alignment reference of the design document words it:
the cursor is padded by the distance to the next multiple (zero when it is
already a multiple). -/
def specRoundUp (c a : Nat) : Nat := c + (a - c % a) % a

/-- Sequential bump-with-alignment reference algorithm, exactly as the
design document states it: a cursor starts at 0; for each request in
order, the cursor is rounded up to the nearest multiple of the alignment
(becoming the request offset), then advanced by the request size; the
final cursor is the total size. -/
def specPlan : Nat → List JointPointer_t → List JointPointer_t × Nat
  | c, [] => ([], c)
  | c, e :: rest =>
    let off := specRoundUp c e.Alignment
    let res := specPlan (off + e.Size) rest
    ({ e with Offset := off } :: res.1, res.2)

/- Helper lemmas shared by the claim theorems. -/

theorem specRoundUp_le (c a : Nat) : c ≤ specRoundUp c a := Nat.le_add_right _ _

theorem roundUp_eq_specRoundUp (c a : Nat) (h : 0 < a) :
    roundUp c a = specRoundUp c a := by
  obtain ⟨q, r, hrlt, rfl⟩ : ∃ q r, r < a ∧ c = a * q + r :=
    ⟨c / a, c % a, Nat.mod_lt _ h, (Nat.div_add_mod c a).symm⟩
  unfold roundUp specRoundUp
  have hmod : (a * q + r) % a = r := by
    rw [Nat.mul_add_mod]; exact Nat.mod_eq_of_lt hrlt
  rw [hmod]
  rcases Nat.eq_zero_or_pos r with rfl | hpos
  · simp only [Nat.add_zero, Nat.sub_zero, Nat.mod_self]
    rw [Nat.add_sub_assoc h, Nat.mul_add_div h,
        Nat.div_eq_of_lt (Nat.sub_lt h Nat.one_pos), Nat.add_zero, Nat.mul_comm]
  · have h1 : a * q + r + a - 1 = a * (q + 1) + (r - 1) := by
      rw [Nat.mul_add, Nat.mul_one]
      generalize a * q = x
      omega
    rw [h1, Nat.mul_add_div h, Nat.div_eq_of_lt (by omega : r - 1 < a), Nat.add_zero]
    have h2 : (q + 1) * a = a * q + a := by
      rw [Nat.add_mul, Nat.one_mul, Nat.mul_comm]
    rw [h2, Nat.mod_eq_of_lt (by omega : a - r < a), Nat.add_assoc,
        Nat.add_sub_cancel' (Nat.le_of_lt hrlt)]

theorem specPlan_snd_ge (p : Nat) (xs : List JointPointer_t) :
    p ≤ (specPlan p xs).2 := by
  induction xs generalizing p with
  | nil => exact Nat.le_refl p
  | cons e rest ih =>
    exact Nat.le_trans
      (Nat.le_trans (specRoundUp_le p e.Alignment) (Nat.le_add_right _ e.Size)) (ih _)

theorem specPlan_offsets_ge (p : Nat) (xs : List JointPointer_t) :
    ∀ y ∈ (specPlan p xs).1, p ≤ y.Offset := by
  induction xs generalizing p with
  | nil => intro y hy; exact absurd hy (List.not_mem_nil y)
  | cons e rest ih =>
    intro y hy
    rcases List.mem_cons.mp hy with rfl | hy
    · exact specRoundUp_le _ _
    · exact Nat.le_trans
        (Nat.le_trans (specRoundUp_le p e.Alignment) (Nat.le_add_right _ _)) (ih _ y hy)

theorem specPlan_pairwise (p : Nat) (xs : List JointPointer_t) :
    ((specPlan p xs).1).Pairwise (fun x y => x.Offset + x.Size ≤ y.Offset) := by
  induction xs generalizing p with
  | nil => exact List.Pairwise.nil
  | cons e rest ih =>
    refine List.Pairwise.cons ?_ (ih _)
    intro y hy
    exact specPlan_offsets_ge _ _ y hy

theorem totalSizeLoop_eq_specPlan (p : Nat) (xs : List JointPointer_t)
    (hpos : ∀ e ∈ xs, 0 < e.Alignment) (hfit : (specPlan p xs).2 ≤ SIZE_MAX) :
    totalSizeLoop p xs = specPlan p xs := by
  induction xs generalizing p with
  | nil => rfl
  | cons e rest ih =>
    have ha : 0 < e.Alignment := hpos e (List.mem_cons_self e rest)
    have hcur : specRoundUp p e.Alignment + e.Size ≤
        (specPlan (specRoundUp p e.Alignment + e.Size) rest).2 := specPlan_snd_ge _ _
    have hfit2 : (specPlan (specRoundUp p e.Alignment + e.Size) rest).2 ≤ SIZE_MAX := hfit
    have hstd : stdAlign e.Alignment e.Size p = specRoundUp p e.Alignment := by
      unfold stdAlign
      rw [roundUp_eq_specRoundUp p e.Alignment ha]
      have hs : specRoundUp p e.Alignment - p ≤ specRoundUp p e.Alignment := Nat.sub_le _ _
      have hle : e.Size ≤ SIZE_MAX - (specRoundUp p e.Alignment - p) := by omega
      simp [hle]
    simp only [totalSizeLoop, specPlan, hstd]
    rw [ih _ (fun x hx => hpos x (List.mem_cons_of_mem e hx)) hfit2]

theorem totalSizeLoop_map {α : Type} (f : JointPointer_t → α)
    (hf : ∀ e off, f { e with Offset := off } = f e) (p : Nat)
    (xs : List JointPointer_t) : ((totalSizeLoop p xs).1).map f = xs.map f := by
  induction xs generalizing p with
  | nil => rfl
  | cons e rest ih => simp only [totalSizeLoop, List.map_cons, hf, ih]

theorem totalSizeLoop_length (p : Nat) (xs : List JointPointer_t) :
    ((totalSizeLoop p xs).1).length = xs.length := by
  induction xs generalizing p with
  | nil => rfl
  | cons e rest ih => simp only [totalSizeLoop, List.length_cons, ih]

theorem totalSizeLoop_idem (p : Nat) (xs : List JointPointer_t) :
    totalSizeLoop p ((totalSizeLoop p xs).1) = totalSizeLoop p xs := by
  induction xs generalizing p with
  | nil => rfl
  | cons e rest ih => simp only [totalSizeLoop, ih]

theorem iniCursorLoop_eq (p : Nat) (xs : List JointPointer_t) :
    iniCursorLoop p xs = (totalSizeLoop p xs).2 := by
  induction xs generalizing p with
  | nil => rfl
  | cons e rest ih => simp only [iniCursorLoop, totalSizeLoop, ih]

theorem iniWriteLoop_eq (m p : Nat) (xs : List JointPointer_t) :
    iniWriteLoop m p xs =
      ((totalSizeLoop p xs).1).map (fun e => (e.Pointer, m + e.Offset)) := by
  induction xs generalizing p with
  | nil => rfl
  | cons e rest ih => simp only [iniWriteLoop, totalSizeLoop, List.map_cons, ih]

theorem totalSize_of_pos {elems : List JointPointer_t} (h : elems.length > 0) :
    JointPointerTotalSize elems = .ok (totalSizeLoop 0 elems) := by
  unfold JointPointerTotalSize
  rw [if_pos h]

theorem write_of_pos (m : Nat) {elems : List JointPointer_t}
    (h : elems.length > 0) :
    JointPointerWrite m elems = .ok (elems.map fun e => (e.Pointer, m + e.Offset)) := by
  unfold JointPointerWrite
  rw [if_pos h]

theorem allocate_of_pos (b : Bool) (alloc : Nat → Nat)
    (elems : List JointPointer_t) (h : elems.length > 0) :
    JointPointerAllocate b alloc elems =
      (.ok { outSize := if b then some ((totalSizeLoop 0 elems).2) else none,
             writes := ((totalSizeLoop 0 elems).1).map
               (fun e => (e.Pointer, alloc ((totalSizeLoop 0 elems).2) + e.Offset)),
             ret := alloc ((totalSizeLoop 0 elems).2),
             elems := (totalSizeLoop 0 elems).1 },
       [(totalSizeLoop 0 elems).2]) := by
  have hlen : ((totalSizeLoop 0 elems).1).length > 0 := by
    rw [totalSizeLoop_length]; exact h
  unfold JointPointerAllocate
  rw [if_pos h, totalSize_of_pos h]
  simp only [write_of_pos _ hlen]

theorem allocateIni_of_pos (b : Bool) (alloc : Nat → Nat)
    (ini : List JointPointer_t) (h : ini.length > 0) :
    JointPointerAllocateIni b alloc ini =
      (.ok { outSize := if b then some (iniCursorLoop 0 ini) else none,
             writes := iniWriteLoop (alloc (iniCursorLoop 0 ini)) 0 ini,
             ret := 0, elems := ini }, [iniCursorLoop 0 ini]) := by
  unfold JointPointerAllocateIni
  rw [if_pos h]

/-- Claim C7 (confirmed): `JointPointerTotalSize` produces exactly the
three documented scenario results: requests [(48,16),(12,2)] get offsets
[0,48] and total 60; [(5,4),(8,8)] get offsets [0,8] and total 16;
[(0,16),(4,4)] get offsets [0,0] and total 4 (the zero-size request
contributes no bytes but still claims an aligned slot). -/
theorem claim_C7_scenarios :
    JointPointerTotalSize [⟨10, 48, 16, 0⟩, ⟨11, 12, 2, 0⟩] =
      .ok ([⟨10, 48, 16, 0⟩, ⟨11, 12, 2, 48⟩], 60) ∧
    JointPointerTotalSize [⟨10, 5, 4, 0⟩, ⟨11, 8, 8, 0⟩] =
      .ok ([⟨10, 5, 4, 0⟩, ⟨11, 8, 8, 8⟩], 16) ∧
    JointPointerTotalSize [⟨10, 0, 16, 0⟩, ⟨11, 4, 4, 0⟩] =
      .ok ([⟨10, 0, 16, 0⟩, ⟨11, 4, 4, 0⟩], 4) :=
  ⟨rfl, rfl, rfl⟩

/-- Claim C4 (confirmed): on an empty request sequence the planner and all
four allocate overloads fail through the `Num > 0` assertion (the check
that realises the EmptyRequestSet failure of the design document) and the
allocator callback is never invoked: the invocation trace is empty. -/
theorem claim_C4_empty_requests (b : Bool) (alloc : Nat → Nat)
    (alloc2 : Nat → Nat → Nat) :
    JointPointerTotalSize [] = .error .assertNumPositive ∧
    JointPointerAllocate b alloc [] = (.error .assertNumPositive, []) ∧
    JointPointerAllocateAligned b alloc2 [] = (.error .assertNumPositive, []) ∧
    JointPointerAllocateIni b alloc [] = (.error .assertNumPositive, []) ∧
    JointPointerAllocateIniAligned b alloc2 [] = (.error .assertNumPositive, []) :=
  ⟨rfl, rfl, rfl, rfl, rfl⟩

/-- Claim C3 (corrected): the planner performs no alignment validation:
for every non-empty request sequence, including any with alignments that
are not powers of two, it signals no failure and returns the result of the
rounding loop. -/
theorem claim_C3_no_alignment_validation (elems : List JointPointer_t)
    (hne : elems ≠ []) :
    JointPointerTotalSize elems = .ok (totalSizeLoop 0 elems) :=
  totalSize_of_pos (List.length_pos.mpr hne)

/-- Claim C3 counterexample: at a request with alignment 6, which is not a
power of two, the planner does not signal an InvalidAlignment failure; it
proceeds with rounding and returns offsets [0, 8] and total 10. -/
theorem claim_C3_counterexample :
    JointPointerTotalSize [⟨0, 7, 6, 0⟩, ⟨1, 2, 2, 0⟩] =
      .ok ([⟨0, 7, 6, 0⟩, ⟨1, 2, 2, 8⟩], 10) := rfl

/-- Claim C3 witness: the amended statement at the concrete input
[(size 5, align 3)], whose alignment is not a power of two. -/
theorem claim_C3_witness :
    JointPointerTotalSize [⟨0, 5, 3, 0⟩] = .ok ([⟨0, 5, 3, 0⟩], 5) :=
  claim_C3_no_alignment_validation [⟨0, 5, 3, 0⟩] (by decide)

/-- Claim C9 (confirmed): the planner mutates only the Offset field of
each element; the Pointer, Size and Alignment fields of every element are
unchanged by the call. -/
theorem claim_C9_frame (elems es : List JointPointer_t) (total : Nat)
    (hplan : JointPointerTotalSize elems = .ok (es, total)) :
    es.map (fun e => e.Pointer) = elems.map (fun e => e.Pointer) ∧
    es.map (fun e => e.Size) = elems.map (fun e => e.Size) ∧
    es.map (fun e => e.Alignment) = elems.map (fun e => e.Alignment) := by
  have hes : es = (totalSizeLoop 0 elems).1 := by
    unfold JointPointerTotalSize at hplan
    split at hplan
    · injection hplan with h
      exact (congrArg Prod.fst h).symm
    · exact Except.noConfusion hplan
  subst hes
  exact ⟨totalSizeLoop_map (fun e => e.Pointer) (fun e off => rfl) 0 elems,
         totalSizeLoop_map (fun e => e.Size) (fun e off => rfl) 0 elems,
         totalSizeLoop_map (fun e => e.Alignment) (fun e off => rfl) 0 elems⟩

/-- Claim C9 witness: the frame property at a concrete two-element
sequence whose offsets the planner overwrites from junk values. -/
theorem claim_C9_witness :
    ([⟨3, 5, 2, 0⟩, ⟨4, 1, 4, 8⟩] : List JointPointer_t).map (fun e => e.Pointer) =
      ([⟨3, 5, 2, 9⟩, ⟨4, 1, 4, 9⟩] : List JointPointer_t).map (fun e => e.Pointer) ∧
    ([⟨3, 5, 2, 0⟩, ⟨4, 1, 4, 8⟩] : List JointPointer_t).map (fun e => e.Size) =
      ([⟨3, 5, 2, 9⟩, ⟨4, 1, 4, 9⟩] : List JointPointer_t).map (fun e => e.Size) ∧
    ([⟨3, 5, 2, 0⟩, ⟨4, 1, 4, 8⟩] : List JointPointer_t).map (fun e => e.Alignment) =
      ([⟨3, 5, 2, 9⟩, ⟨4, 1, 4, 9⟩] : List JointPointer_t).map (fun e => e.Alignment) :=
  claim_C9_frame [⟨3, 5, 2, 9⟩, ⟨4, 1, 4, 9⟩] [⟨3, 5, 2, 0⟩, ⟨4, 1, 4, 8⟩] 9 rfl

/-- Claim C8 (confirmed): for a non-empty sequence with power-of-two
alignments, running the planner a second time on the sequence the first
run left behind returns the same total and leaves every offset unchanged:
the second run returns exactly the elements and total of the first. -/
theorem claim_C8_idempotent (elems es : List JointPointer_t) (total : Nat)
    (hne : elems ≠ []) (_hpow : ∀ e ∈ elems, ∃ k, e.Alignment = 2 ^ k)
    (hplan : JointPointerTotalSize elems = .ok (es, total)) :
    JointPointerTotalSize es = .ok (es, total) := by
  have hpos : elems.length > 0 := List.length_pos.mpr hne
  rw [totalSize_of_pos hpos] at hplan
  injection hplan with h
  have hes : (totalSizeLoop 0 elems).1 = es := congrArg Prod.fst h
  have hlen : es.length = elems.length := by
    rw [← hes, totalSizeLoop_length]
  rw [totalSize_of_pos (by omega : es.length > 0), ← hes, totalSizeLoop_idem, h]

/-- Claim C8 witness: idempotence at the concrete input [(size 5, align
4)] with a junk initial offset; the first run yields offset 0 and total 5
and the second run reproduces them. -/
theorem claim_C8_witness :
    JointPointerTotalSize [⟨0, 5, 4, 0⟩] = .ok ([⟨0, 5, 4, 0⟩], 5) :=
  claim_C8_idempotent [⟨0, 5, 4, 7⟩] [⟨0, 5, 4, 0⟩] 5 (by decide)
    (by
      intro e he
      rcases List.mem_cons.mp he with rfl | h
      · exact ⟨2, rfl⟩
      · exact absurd h (List.not_mem_nil e))
    rfl

/-- Claim C2 (corrected): for every non-empty request sequence with
power-of-two alignments WHOSE REFERENCE TOTAL FITS IN size_t (at most
2^64 - 1, the Space the source passes to std::align), the planner equals
the sequential bump-with-alignment reference: each offset is the cursor
rounded up to the nearest multiple of the alignment and the returned total
is the final cursor. -/
theorem claim_C2_matches_reference (elems : List JointPointer_t)
    (hne : elems ≠ []) (hpow : ∀ e ∈ elems, ∃ k, e.Alignment = 2 ^ k)
    (hfit : (specPlan 0 elems).2 ≤ SIZE_MAX) :
    JointPointerTotalSize elems = .ok (specPlan 0 elems) := by
  have hpos : ∀ e ∈ elems, 0 < e.Alignment := by
    intro e he
    obtain ⟨k, hk⟩ := hpow e he
    rw [hk]
    exact pow_pos (by decide : (0 : Nat) < 2) k
  rw [totalSize_of_pos (List.length_pos.mpr hne),
      totalSizeLoop_eq_specPlan 0 elems hpos hfit]

/-- Claim C2 counterexample: with requests [(size 1, align 1),
(size 2^64 - 1, align 8)] the std::align call of the second iteration
fails (padding 7 plus the size exceeds the SIZE_MAX space), so the code
stores offset 0 and total 2^64 - 1, while the reference stores offset 8
and total 2^64 + 7. -/
theorem claim_C2_counterexample :
    JointPointerTotalSize [⟨0, 1, 1, 0⟩, ⟨1, 2 ^ 64 - 1, 8, 0⟩] =
      .ok ([⟨0, 1, 1, 0⟩, ⟨1, 2 ^ 64 - 1, 8, 0⟩], 2 ^ 64 - 1) ∧
    specPlan 0 [⟨0, 1, 1, 0⟩, ⟨1, 2 ^ 64 - 1, 8, 0⟩] =
      ([⟨0, 1, 1, 0⟩, ⟨1, 2 ^ 64 - 1, 8, 8⟩], 2 ^ 64 + 7) ∧
    (2 ^ 64 - 1 : Nat) ≠ 2 ^ 64 + 7 :=
  ⟨rfl, rfl, by decide⟩

/-- Claim C2 witness: the amended statement at requests [(size 6, align
2), (size 10, align 4)], whose reference total 18 fits. -/
theorem claim_C2_witness :
    JointPointerTotalSize [⟨5, 6, 2, 0⟩, ⟨9, 10, 4, 0⟩] =
      .ok (specPlan 0 [⟨5, 6, 2, 0⟩, ⟨9, 10, 4, 0⟩]) :=
  claim_C2_matches_reference [⟨5, 6, 2, 0⟩, ⟨9, 10, 4, 0⟩] (by decide)
    (by
      intro e he
      rcases List.mem_cons.mp he with rfl | he
      · exact ⟨1, rfl⟩
      · rcases List.mem_cons.mp he with rfl | he
        · exact ⟨2, rfl⟩
        · exact absurd he (List.not_mem_nil e))
    (by decide)

/-- Claim C6 (corrected): for every request sequence with power-of-two
alignments WHOSE REFERENCE TOTAL FITS IN size_t (at most 2^64 - 1), the
offsets the planner stores are non-overlapping in sequence order: for all
i < j, offset i plus size i is at most offset j. -/
theorem claim_C6_no_overlap (elems es : List JointPointer_t) (total : Nat)
    (hpow : ∀ e ∈ elems, ∃ k, e.Alignment = 2 ^ k)
    (hfit : (specPlan 0 elems).2 ≤ SIZE_MAX)
    (hplan : JointPointerTotalSize elems = .ok (es, total)) :
    ∀ (i j : Fin es.length), i < j →
      (es.get i).Offset + (es.get i).Size ≤ (es.get j).Offset := by
  have hpos : ∀ e ∈ elems, 0 < e.Alignment := by
    intro e he
    obtain ⟨k, hk⟩ := hpow e he
    rw [hk]
    exact pow_pos (by decide : (0 : Nat) < 2) k
  have hne : elems ≠ [] := by
    intro h
    subst h
    exact Except.noConfusion hplan
  rw [totalSize_of_pos (List.length_pos.mpr hne),
      totalSizeLoop_eq_specPlan 0 elems hpos hfit] at hplan
  injection hplan with h
  have hes : (specPlan 0 elems).1 = es := congrArg Prod.fst h
  intro i j hij
  have hp := specPlan_pairwise 0 elems
  rw [hes] at hp
  exact List.pairwise_iff_get.mp hp i j hij

/-- Claim C6 counterexample: with requests [(size 1, align 1),
(size 2^64 - 1, align 16)] the second std::align call fails and the code
stores offset 0 for the second request, so offset 0 + size 0 = 1 exceeds
offset 1 = 0 and the two intervals overlap. -/
theorem claim_C6_counterexample :
    JointPointerTotalSize [⟨0, 1, 1, 0⟩, ⟨1, 2 ^ 64 - 1, 16, 0⟩] =
      .ok ([⟨0, 1, 1, 0⟩, ⟨1, 2 ^ 64 - 1, 16, 0⟩], 2 ^ 64 - 1) ∧
    ¬ ((0 : Nat) + 1 ≤ 0) :=
  ⟨rfl, by decide⟩

/-- Claim C6 witness: the amended statement at requests [(size 5, align
4), (size 8, align 8)] for the index pair 0 < 1: offset 0 plus size 5 is
at most offset 8. -/
theorem claim_C6_witness :
    (([⟨2, 5, 4, 0⟩, ⟨3, 8, 8, 8⟩] : List JointPointer_t).get ⟨0, by decide⟩).Offset +
        (([⟨2, 5, 4, 0⟩, ⟨3, 8, 8, 8⟩] : List JointPointer_t).get ⟨0, by decide⟩).Size ≤
      (([⟨2, 5, 4, 0⟩, ⟨3, 8, 8, 8⟩] : List JointPointer_t).get ⟨1, by decide⟩).Offset :=
  claim_C6_no_overlap [⟨2, 5, 4, 1⟩, ⟨3, 8, 8, 2⟩] [⟨2, 5, 4, 0⟩, ⟨3, 8, 8, 8⟩] 16
    (by
      intro e he
      rcases List.mem_cons.mp he with rfl | he
      · exact ⟨2, rfl⟩
      · rcases List.mem_cons.mp he with rfl | he
        · exact ⟨3, rfl⟩
        · exact absurd he (List.not_mem_nil e))
    (by decide) rfl ⟨0, by decide⟩ ⟨1, by decide⟩ (by decide)

/-- Claim C1 (corrected): when the external allocator callback returns the
null result, `JointPointerAllocate` performs no failure check at all: the
call still reports success, returns the null base, and writes base plus
offset — that is, the bare offset, the base being null — through EVERY
request slot; no AllocatorFailure is surfaced and the write list is never
empty. -/
theorem claim_C1_null_alloc_writes_all (b : Bool)
    (elems : List JointPointer_t) (hne : elems ≠ []) :
    (JointPointerAllocate b (fun _ => 0) elems).1 =
      .ok { outSize := if b then some ((totalSizeLoop 0 elems).2) else none,
            writes := ((totalSizeLoop 0 elems).1).map
              (fun e => (e.Pointer, e.Offset)),
            ret := 0,
            elems := (totalSizeLoop 0 elems).1 } ∧
    ((totalSizeLoop 0 elems).1).map (fun e => (e.Pointer, e.Offset)) ≠ [] := by
  have hpos : elems.length > 0 := List.length_pos.mpr hne
  constructor
  · rw [allocate_of_pos b (fun _ => 0) elems hpos]
    simp only [Nat.zero_add]
  · intro h
    have hl := congrArg List.length h
    rw [List.length_map, totalSizeLoop_length] at hl
    simp only [List.length_nil] at hl
    omega

/-- Claim C1 counterexample: with the single request (slot 100, size 4,
align 4) and an allocator that returns null, the allocate call reports
success, writes the value 0 through slot 100 — a non-empty write list —
and surfaces no failure. -/
theorem claim_C1_counterexample :
    JointPointerAllocate true (fun _ => 0) [⟨100, 4, 4, 0⟩] =
      (.ok ⟨some 4, [(100, 0)], 0, [⟨100, 4, 4, 0⟩]⟩, [4]) ∧
    ([(100, 0)] : List (Nat × Nat)) ≠ [] :=
  ⟨rfl, by decide⟩

/-- Claim C1 witness: the amended statement at the single request (slot
100, size 4, align 4). -/
theorem claim_C1_witness :
    (JointPointerAllocate true (fun _ => 0) [⟨100, 4, 4, 0⟩]).1 =
      .ok { outSize := some 4, writes := [(100, 0)], ret := 0,
            elems := [⟨100, 4, 4, 0⟩] } ∧
    ([(100, 0)] : List (Nat × Nat)) ≠ [] :=
  claim_C1_null_alloc_writes_all true [⟨100, 4, 4, 0⟩] (by decide)

/-- Claim C5 (confirmed): whenever an initializer_list overload returns at
all it returns the null pointer, never the base address produced by the
allocator callback, while the array overload returns the allocated base
address. -/
theorem claim_C5_ini_returns_null (b : Bool) (alloc : Nat → Nat)
    (alloc2 : Nat → Nat → Nat) (ini ini2 elems : List JointPointer_t)
    (r1 r2 r3 : AllocReturn)
    (h1 : (JointPointerAllocateIni b alloc ini).1 = .ok r1)
    (h2 : (JointPointerAllocateIniAligned b alloc2 ini2).1 = .ok r2)
    (h3 : (JointPointerAllocate b alloc elems).1 = .ok r3) :
    r1.ret = 0 ∧ r2.ret = 0 ∧ r3.ret = alloc ((totalSizeLoop 0 elems).2) := by
  refine ⟨?_, ?_, ?_⟩
  · unfold JointPointerAllocateIni at h1
    split at h1
    · injection h1 with h
      rw [← h]
    · exact Except.noConfusion h1
  · cases ini2 with
    | nil => exact Except.noConfusion h2
    | cons e0 rest =>
      injection h2 with h
      rw [← h]
  · rcases Nat.eq_zero_or_pos elems.length with hz | hpos
    · rw [List.length_eq_zero.mp hz] at h3
      exact Except.noConfusion h3
    · rw [allocate_of_pos b alloc elems hpos] at h3
      injection h3 with h
      rw [← h]

/-- Claim C5 witness: concrete runs of the three overloads; the list-based
calls return 0 while the array-based call returns the allocator result
108. -/
theorem claim_C5_witness :
    (⟨some 4, [(2, 104)], 0, [⟨2, 4, 4, 0⟩]⟩ : AllocReturn).ret = 0 ∧
    (⟨some 4, [(3, 4004)], 0, [⟨3, 4, 4, 0⟩]⟩ : AllocReturn).ret = 0 ∧
    (⟨some 8, [(5, 108)], 108, [⟨5, 8, 8, 0⟩]⟩ : AllocReturn).ret =
      (fun n => 100 + n) ((totalSizeLoop 0 [⟨5, 8, 8, 0⟩]).2) :=
  claim_C5_ini_returns_null true (fun n => 100 + n) (fun s a => s * 1000 + a * 1)
    [⟨2, 4, 4, 0⟩] [⟨3, 4, 4, 0⟩] [⟨5, 8, 8, 0⟩] _ _ _ rfl rfl rfl

/-- Claim C10 (confirmed): for every non-empty request sequence with
power-of-two alignments and every plain allocator, the initializer_list
overload writes the same address into every output slot and stores the
same total through OutSize as the array overload; they differ only in the
return value (null versus the base) and in that the initializer_list
overload leaves the Offset fields of its elements unwritten. -/
theorem claim_C10_ini_matches_array (b : Bool) (alloc : Nat → Nat)
    (elems : List JointPointer_t) (hne : elems ≠ [])
    (_hpow : ∀ e ∈ elems, ∃ k, e.Alignment = 2 ^ k)
    (r1 r3 : AllocReturn)
    (h1 : (JointPointerAllocateIni b alloc elems).1 = .ok r1)
    (h3 : (JointPointerAllocate b alloc elems).1 = .ok r3) :
    r1.writes = r3.writes ∧ r1.outSize = r3.outSize ∧
    r1.elems = elems ∧ r3.elems = (totalSizeLoop 0 elems).1 ∧
    r1.ret = 0 ∧ r3.ret = alloc ((totalSizeLoop 0 elems).2) := by
  have hpos : elems.length > 0 := List.length_pos.mpr hne
  rw [allocateIni_of_pos b alloc elems hpos] at h1
  rw [allocate_of_pos b alloc elems hpos] at h3
  injection h1 with h1
  injection h3 with h3
  subst h1
  subst h3
  refine ⟨?_, ?_, rfl, rfl, rfl, rfl⟩
  · show iniWriteLoop (alloc (iniCursorLoop 0 elems)) 0 elems = _
    rw [iniWriteLoop_eq, iniCursorLoop_eq]
  · show (if b then some (iniCursorLoop 0 elems) else none) = _
    rw [iniCursorLoop_eq]

/-- Claim C10 witness: the equivalence at requests [(slot 7, size 3,
align 2), (slot 8, size 6, align 4)] with the allocator that returns 64
plus the requested size. -/
theorem claim_C10_witness :
    (⟨some 10, [(7, 74), (8, 78)], 0,
        [⟨7, 3, 2, 0⟩, ⟨8, 6, 4, 0⟩]⟩ : AllocReturn).writes =
      (⟨some 10, [(7, 74), (8, 78)], 74,
        [⟨7, 3, 2, 0⟩, ⟨8, 6, 4, 4⟩]⟩ : AllocReturn).writes ∧
    (⟨some 10, [(7, 74), (8, 78)], 0,
        [⟨7, 3, 2, 0⟩, ⟨8, 6, 4, 0⟩]⟩ : AllocReturn).outSize =
      (⟨some 10, [(7, 74), (8, 78)], 74,
        [⟨7, 3, 2, 0⟩, ⟨8, 6, 4, 4⟩]⟩ : AllocReturn).outSize ∧
    (⟨some 10, [(7, 74), (8, 78)], 0,
        [⟨7, 3, 2, 0⟩, ⟨8, 6, 4, 0⟩]⟩ : AllocReturn).elems =
      [⟨7, 3, 2, 0⟩, ⟨8, 6, 4, 0⟩] ∧
    (⟨some 10, [(7, 74), (8, 78)], 74,
        [⟨7, 3, 2, 0⟩, ⟨8, 6, 4, 4⟩]⟩ : AllocReturn).elems =
      (totalSizeLoop 0 [⟨7, 3, 2, 0⟩, ⟨8, 6, 4, 0⟩]).1 ∧
    (⟨some 10, [(7, 74), (8, 78)], 0,
        [⟨7, 3, 2, 0⟩, ⟨8, 6, 4, 0⟩]⟩ : AllocReturn).ret = 0 ∧
    (⟨some 10, [(7, 74), (8, 78)], 74,
        [⟨7, 3, 2, 0⟩, ⟨8, 6, 4, 4⟩]⟩ : AllocReturn).ret =
      (fun n => 64 + n) ((totalSizeLoop 0 [⟨7, 3, 2, 0⟩, ⟨8, 6, 4, 0⟩]).2) :=
  claim_C10_ini_matches_array true (fun n => 64 + n)
    [⟨7, 3, 2, 0⟩, ⟨8, 6, 4, 0⟩] (by decide)
    (by
      intro e he
      rcases List.mem_cons.mp he with rfl | he
      · exact ⟨1, rfl⟩
      · rcases List.mem_cons.mp he with rfl | he
        · exact ⟨2, rfl⟩
        · exact absurd he (List.not_mem_nil e))
    _ _ rfl rfl
